import Mathlib

/-!
Shallow embedding of the OAuth2/PKCE Flask application (src/server.py)
and the Substack feed script (src/scripts/substack/user.py), together
with theorems settling the specification claims about them.

Conventions:
* Python strings are `List Char`; bytes are `List Nat` (each element a
  value below 256 where it matters, stated as a hypothesis).
* Library calls whose output the program merely pipes along (SHA-256,
  `os.urandom`, the provider's token endpoint, HTTP fetches) are
  parameters of the embedded functions.
-/

/-- One character of the base64url alphabet (RFC 4648 `urlsafe` table):
index 0–25 map to `A`–`Z`, 26–51 to `a`–`z`, 52–61 to `0`–`9`,
62 to `-` and 63 to `_`. -/
def b64Char (n : Nat) : Char :=
  if n < 26 then Char.ofNat (65 + n)
  else if n < 52 then Char.ofNat (97 + (n - 26))
  else if n < 62 then Char.ofNat (48 + (n - 52))
  else if n = 62 then '-'
  else '_'

/-- base64url encoding of a byte list, with `=` padding, as performed by
Python's `base64.urlsafe_b64encode` followed by `.decode("utf-8")`. -/
def b64urlEncode : List Nat → List Char
  | [] => []
  | [b1] =>
      [b64Char (b1 / 4), b64Char (b1 % 4 * 16), '=', '=']
  | [b1, b2] =>
      [b64Char (b1 / 4), b64Char (b1 % 4 * 16 + b2 / 16), b64Char (b2 % 16 * 4), '=']
  | b1 :: b2 :: b3 :: rest =>
      b64Char (b1 / 4) :: b64Char (b1 % 4 * 16 + b2 / 16) ::
        b64Char (b2 % 16 * 4 + b3 / 64) :: b64Char (b3 % 64) :: b64urlEncode rest

/-- Python's `str.replace("=", "")`: every occurrence of `=` is removed. -/
def replaceEqEmpty (s : List Char) : List Char :=
  s.filter (fun c => c ≠ '=')

/-- Removal of trailing `=` padding only (the spec's wording for the
challenge: "trailing `=` padding characters removed"). -/
def dropTrailingEq (s : List Char) : List Char :=
  (s.reverse.dropWhile (fun c => c = '=')).reverse

/-- Membership test of Python's character class `[a-zA-Z0-9]`. -/
def isAlnumAscii (c : Char) : Bool :=
  ('a' ≤ c && c ≤ 'z') || ('A' ≤ c && c ≤ 'Z') || ('0' ≤ c && c ≤ '9')

/-- Python's `re.sub("[^a-zA-Z0-9]+", "", s)`: each maximal run of
characters outside `[a-zA-Z0-9]` is replaced by the empty string.  The
recursion mirrors the scan: an alphanumeric character is emitted, a
non-alphanumeric character starts (or continues) a run that is dropped. -/
def reSubNonAlnum : List Char → List Char
  | [] => []
  | c :: rest => if isAlnumAscii c then c :: reSubNonAlnum rest else reSubNonAlnum rest

/-- server.py lines 35–36: `code_verifier` as a function of the 30 random
bytes drawn from `os.urandom` — base64url-encode, then strip every
character outside `[a-zA-Z0-9]` with `re.sub`. -/
def code_verifier_of (randomBytes : List Nat) : List Char :=
  reSubNonAlnum (b64urlEncode randomBytes)

/-- server.py lines 38–40: `code_challenge` as a function of the SHA-256
digest bytes (the output of `hashlib.sha256(code_verifier.encode("utf-8")).digest()`,
an external library call) — base64url-encode, then `.replace("=", "")`. -/
def code_challenge_of (sha256digest : List Nat) : List Char :=
  replaceEqEmpty (b64urlEncode sha256digest)

/-- The spec's description of the challenge: base64url encoding of the
digest with trailing `=` padding removed. -/
def spec_challenge_of (sha256digest : List Nat) : List Char :=
  dropTrailingEq (b64urlEncode sha256digest)

/-- UTF-8 byte sequence of one code point. -/
def utf8Bytes (n : Nat) : List Nat :=
  if n < 128 then [n]
  else if n < 2048 then [192 + n / 64, 128 + n % 64]
  else if n < 65536 then [224 + n / 4096, 128 + n / 64 % 64, 128 + n % 64]
  else [240 + n / 262144, 128 + n / 4096 % 64, 128 + n / 64 % 64, 128 + n % 64]

/-- Python's `str.encode("utf-8")` on our character-list strings. -/
def utf8Encode (s : List Char) : List Nat :=
  (s.map (fun c => utf8Bytes c.toNat)).flatten

/-- Every base64url alphabet character differs from the padding character. -/
theorem b64Char_ne_eq : ∀ n < 64, b64Char n ≠ '=' := by decide

theorem dropTrailingEq_cons_aux (p : Char → Bool) (c : Char) (hc : p c = false) :
    ∀ xs : List Char, (List.dropWhile p (xs ++ [c])).reverse = c :: (List.dropWhile p xs).reverse := by
  intro xs
  induction xs with
  | nil => simp [List.dropWhile, hc]
  | cons x xs ih =>
      by_cases hx : p x
      · simpa [List.dropWhile, hx] using ih
      · simp [List.dropWhile, hx]

theorem dropTrailingEq_cons (c : Char) (l : List Char) (hc : c ≠ '=') :
    dropTrailingEq (c :: l) = c :: dropTrailingEq l := by
  have hcb : (fun c => decide (c = '=')) c = false := by simp [hc]
  simp only [dropTrailingEq, List.reverse_cons]
  rw [dropTrailingEq_cons_aux _ c hcb l.reverse]

/-- Central lemma behind claim C3: on the base64url encoding of any byte
list, removing every `=` (what the code does) and removing only the
trailing `=` padding (what the spec says) coincide, because `=` occurs
only as trailing padding. -/
theorem replaceEqEmpty_b64urlEncode :
    ∀ bs : List Nat, (∀ b ∈ bs, b < 256) →
      replaceEqEmpty (b64urlEncode bs) = dropTrailingEq (b64urlEncode bs)
  | [], _ => by simp [b64urlEncode, replaceEqEmpty, dropTrailingEq]
  | [b1], h => by
      have hb1 : b1 < 256 := h b1 (by simp)
      have h1 : b64Char (b1 / 4) ≠ '=' := b64Char_ne_eq _ (by omega)
      have h2 : b64Char (b1 % 4 * 16) ≠ '=' := b64Char_ne_eq _ (by omega)
      simp [b64urlEncode, replaceEqEmpty, dropTrailingEq, List.dropWhile, h1, h2]
  | [b1, b2], h => by
      have hb1 : b1 < 256 := h b1 (by simp)
      have hb2 : b2 < 256 := h b2 (by simp)
      have h1 : b64Char (b1 / 4) ≠ '=' := b64Char_ne_eq _ (by omega)
      have h2 : b64Char (b1 % 4 * 16 + b2 / 16) ≠ '=' := b64Char_ne_eq _ (by omega)
      have h3 : b64Char (b2 % 16 * 4) ≠ '=' := b64Char_ne_eq _ (by omega)
      simp [b64urlEncode, replaceEqEmpty, dropTrailingEq, List.dropWhile, h1, h2, h3]
  | b1 :: b2 :: b3 :: rest, h => by
      have hb1 : b1 < 256 := h b1 (by simp)
      have hb2 : b2 < 256 := h b2 (by simp)
      have hb3 : b3 < 256 := h b3 (by simp)
      have h1 : b64Char (b1 / 4) ≠ '=' := b64Char_ne_eq _ (by omega)
      have h2 : b64Char (b1 % 4 * 16 + b2 / 16) ≠ '=' := b64Char_ne_eq _ (by omega)
      have h3 : b64Char (b2 % 16 * 4 + b3 / 64) ≠ '=' := b64Char_ne_eq _ (by omega)
      have h4 : b64Char (b3 % 64) ≠ '=' := b64Char_ne_eq _ (by omega)
      have ih := replaceEqEmpty_b64urlEncode rest (fun b hb => h b (by simp [hb]))
      simp only [b64urlEncode, replaceEqEmpty, List.filter_cons] at ih ⊢
      simp only [dropTrailingEq_cons _ _ h1, dropTrailingEq_cons _ _ h2,
        dropTrailingEq_cons _ _ h3, dropTrailingEq_cons _ _ h4]
      simp only [decide_not] at ih
      simp [h1, h2, h3, h4, ih]

/-! ### Embedding of src/server.py: configuration, session, routes -/

/-- Environment-sourced configuration (`CLIENT_ID`, `CLIENT_SECRET`,
`REDIRECT_URI`), read once at module load. -/
structure Env where
  client_id : String
  client_secret : String
  redirect_uri : String
  deriving DecidableEq

/-- server.py line 33: the requested OAuth2 scopes. -/
def scopes : List String := ["tweet.read", "users.read", "tweet.write", "offline.access"]

/-- server.py line 25: the provider's authorization endpoint. -/
def auth_url : String := "https://twitter.com/i/oauth2/authorize"

/-- server.py line 26: the provider's token endpoint. -/
def token_url : String := "https://api.twitter.com/2/oauth2/token"

/-- The `OAuth2Session` object: the data the constructor on line 44
receives and later uses when building requests. -/
structure OAuth2Client where
  client_id : String
  redirect_uri : String
  scope : List String
  deriving DecidableEq

/-- server.py lines 43–44: `make_token` constructs an `OAuth2Session`
from the module-level client id, redirect URI and scopes. -/
def make_token (client_id redirect_uri : String) : OAuth2Client :=
  { client_id := client_id, redirect_uri := redirect_uri, scope := scopes }

/-- The token structure returned by the provider's token endpoint; only
its identity matters to the control flow, so one field represents it. -/
structure Token where
  access_token : String
  deriving DecidableEq

/-- The Flask session dictionary: the three keys server.py ever touches,
each possibly absent. -/
structure Session where
  oauth_state : Option String := none
  redirect_url : Option String := none
  oauth_token : Option Token := none
  deriving DecidableEq

/-- Module-level state of one process: the environment, the PKCE pair
computed once at import time (lines 35–40), and the global `twitter`
variable, unbound (`none`) until `start` first assigns it (line 96). -/
structure ProcessState where
  env : Env
  code_verifier : List Char
  code_challenge : List Char
  twitter : Option OAuth2Client
  deriving DecidableEq

/-- Process initialization (module import): the PKCE verifier is computed
from 30 random bytes, the challenge from the SHA-256 digest of the
verifier's UTF-8 bytes; `sha256` is the external library function. -/
def initProcess (env : Env) (randomBytes : List Nat) (sha256 : List Nat → List Nat) : ProcessState :=
  { env := env
    code_verifier := code_verifier_of randomBytes
    code_challenge := code_challenge_of (sha256 (utf8Encode (code_verifier_of randomBytes)))
    twitter := none }

/-- The provider authorization URL built by `twitter.authorization_url`
on lines 97–99, kept structured: base endpoint, client id, redirect URI,
scopes, the fresh `state`, the PKCE challenge and its method. -/
structure AuthUrl where
  base : String
  client_id : String
  redirect_uri : String
  scope : List String
  state : String
  code_challenge : List Char
  code_challenge_method : String
  deriving DecidableEq

/-- An HTTP response of the two routes: a plain redirect to a location,
or the redirect to the structured provider authorization URL. -/
inductive Response where
  | redirectTo (location : String)
  | redirectAuth (u : AuthUrl)
  deriving DecidableEq

/-- server.py lines 83–101, the `/start` route.  Inputs: the process
state, the session, the optional `redirect_url` query argument, and the
fresh random `state` produced inside `authorization_url` (external
entropy).  Returns the new process state (the global `twitter` may be
assigned), the new session, and the response. -/
def start (ps : ProcessState) (s : Session) (redirect_url_arg : Option String)
    (freshState : String) : ProcessState × Session × Response :=
  if (s.oauth_token).isSome then
    (ps, s, Response.redirectTo "/")
  else
    let redirect_url := redirect_url_arg.getD "/"
    let s1 : Session := { s with redirect_url := some redirect_url }
    let twitter := make_token ps.env.client_id ps.env.redirect_uri
    let ps1 : ProcessState := { ps with twitter := some twitter }
    let u : AuthUrl :=
      { base := auth_url, client_id := twitter.client_id, redirect_uri := twitter.redirect_uri,
        scope := twitter.scope, state := freshState, code_challenge := ps.code_challenge,
        code_challenge_method := "S256" }
    let s2 : Session := { s1 with oauth_state := some freshState }
    (ps1, s2, Response.redirectAuth u)

/-- The token-endpoint request assembled by `twitter.fetch_token` on
lines 106–111: token URL, client secret, the module-level PKCE verifier,
the `code` query parameter, and the redirect URI registered in the
`OAuth2Session` object. -/
structure TokenRequest where
  token_url : String
  client_secret : String
  code_verifier : List Char
  code : Option String
  redirect_uri : String
  deriving DecidableEq

/-- The token request the callback builds from the process state, the
bound `twitter` client and the `code` query parameter. -/
def mkTokenRequest (ps : ProcessState) (tw : OAuth2Client) (code : Option String) : TokenRequest :=
  { token_url := token_url, client_secret := ps.env.client_secret,
    code_verifier := ps.code_verifier, code := code, redirect_uri := tw.redirect_uri }

/-- Outcome of the `/oauth/callback` route: a successful redirect (with
the session it leaves behind and the token request it made), a
propagated token-endpoint failure (an uncaught exception in the code,
carrying the request that was made), or the uncaught `NameError` raised
when the global `twitter` variable has never been assigned. -/
inductive CallbackOutcome where
  | success (s : Session) (resp : Response) (req : TokenRequest)
  | exchangeFailure (err : String) (req : TokenRequest)
  | unboundClient
  deriving DecidableEq

/-- server.py lines 104–123, the `/oauth/callback` route.  `code` and
`state_param` are the query parameters; the code reads only `code` and
never consults `state_param` or the stored `session["oauth_state"]`.
`exchange` is the provider's token endpoint.  If the global `twitter`
was never assigned the route raises `NameError` (`unboundClient`). -/
def callback (ps : ProcessState) (s : Session) (code : Option String)
    (state_param : Option String) (exchange : TokenRequest → Except String Token) :
    CallbackOutcome :=
  match ps.twitter with
  | none => CallbackOutcome.unboundClient
  | some twitter =>
    let req := mkTokenRequest ps twitter code
    match exchange req with
    | Except.error e => CallbackOutcome.exchangeFailure e req
    | Except.ok token =>
      let s1 : Session := { s with oauth_token := some token }
      let redirect_url := s1.redirect_url.getD "/"
      let s2 : Session := { s1 with redirect_url := none }
      CallbackOutcome.success s2 (Response.redirectTo redirect_url) req

/-- The token request an outcome carries, when one was made. -/
def requestOf : CallbackOutcome → Option TokenRequest
  | CallbackOutcome.success _ _ req => some req
  | CallbackOutcome.exchangeFailure _ req => some req
  | CallbackOutcome.unboundClient => none

/-- The PKCE invariant of §3: the held challenge is the one derived from
the held verifier by the challenge pipeline. -/
def pkceDerivable (sha256 : List Nat → List Nat) (ps : ProcessState) : Prop :=
  ps.code_challenge = code_challenge_of (sha256 (utf8Encode ps.code_verifier))

/-! ### Embedding of src/scripts/substack/user.py -/

/-- One item of a feed page: its `type` field and the
`["comment"]["reaction_count"]` value the script extracts. -/
structure FeedItem where
  type : String
  comment_reaction_count : Nat
  deriving DecidableEq

/-- One page of the paginated feed: `nextCursor` and `items`. -/
structure FeedPage where
  nextCursor : String
  items : List FeedItem
  deriving DecidableEq

/-- The profile feed endpoint for a user id. -/
def profileEndpoint (user_id : Nat) : String :=
  "https://substack.com/api/v1/reader/feed/profile/" ++ toString user_id

/-- The profile feed endpoint with a pagination cursor. -/
def profileEndpointCursor (user_id : Nat) (cursor : String) : String :=
  profileEndpoint user_id ++ "?cursor=" ++ cursor

/-- user.py lines 8–39, `get_user_notes`, with the network as the
`fetch` parameter.  Instrumented: the second component of the result
records the URLs requested, in order, so that theorems can speak about
how many fetches happen and with which cursors. -/
def get_user_notes (fetch : String → FeedPage) (user_id : Nat) : List Nat × List String :=
  let endpoint := profileEndpoint user_id
  let r := fetch endpoint
  let next_cursor := r.nextCursor
  let notes := r.items
  let filtered_notes :=
    (notes.filter (fun note => note.type = "comment")).map
      (fun note => note.comment_reaction_count)
  let all_reactions := [] ++ filtered_notes
  let endpoint_with_cursor := profileEndpointCursor user_id next_cursor
  let next_page_response := fetch endpoint_with_cursor
  let notes2 := next_page_response.items
  let filtered_notes2 :=
    (notes2.filter (fun note => note.type = "comment")).map
      (fun note => note.comment_reaction_count)
  let all_reactions2 := all_reactions ++ filtered_notes2
  (all_reactions2, [endpoint, endpoint_with_cursor])

/-- The reaction counts of the comment-typed items of a page, as the
claim phrases it (one pass, keeping page order). -/
def commentReactions (items : List FeedItem) : List Nat :=
  items.filterMap
    (fun note => if note.type = "comment" then some note.comment_reaction_count else none)

/-! ### Shared helper lemmas and concrete fixtures -/

theorem reSubNonAlnum_eq_filter (l : List Char) : reSubNonAlnum l = l.filter isAlnumAscii := by
  induction l with
  | nil => rfl
  | cons c cs ih =>
      by_cases h : isAlnumAscii c <;> simp [reSubNonAlnum, List.filter_cons, h, ih]

theorem requestOf_callback (ps : ProcessState) (s : Session) (code stp : Option String)
    (exchange : TokenRequest → Except String Token) :
    requestOf (callback ps s code stp exchange) =
      ps.twitter.map (fun tw => mkTokenRequest ps tw code) := by
  cases htw : ps.twitter with
  | none => simp [callback, htw, requestOf]
  | some tw =>
      cases hex : exchange (mkTokenRequest ps tw code) with
      | error e => simp [callback, htw, hex, requestOf]
      | ok t => simp [callback, htw, hex, requestOf]

theorem map_filter_comment (items : List FeedItem) :
    (items.filter (fun note => note.type = "comment")).map
      (fun note => note.comment_reaction_count) = commentReactions items := by
  induction items with
  | nil => rfl
  | cons n ns ih =>
      simp only [commentReactions] at ih ⊢
      by_cases h : n.type = "comment" <;>
        simp [List.filter_cons, List.filterMap_cons, h, ih]

def envW : Env := { client_id := "cid", client_secret := "sec", redirect_uri := "https://app/cb" }

def shaW : List Nat → List Nat := fun _ => List.range 32

def psW : ProcessState := initProcess envW [0, 1, 2] shaW

def twW : OAuth2Client := make_token "cid" "https://app/cb"

def tokW : Token := { access_token := "tok" }

def exOk : TokenRequest → Except String Token := fun _ => Except.ok tokW

def startedPs : ProcessState := (start psW {} (some "/playground") "xyz").1

def startedSession : Session := (start psW {} (some "/playground") "xyz").2.1

/-! ### Claims -/

/-- C1 (code-bug evidence): the callback performs no state validation.
With the session holding `oauth_state = "abc123"` and no token, a
callback arriving with `state=wrong` and a valid code is not rejected:
the handler exchanges the code anyway, stores the token in the session
(the session becomes authenticated) and redirects — the spec instead
requires a `StateMismatch` failure with the token remaining absent.
The stored `oauth_state` is never read by the handler. -/
theorem c1_callback_ignores_state_mismatch :
    callback
      { env := { client_id := "cid", client_secret := "sec", redirect_uri := "https://app/cb" },
        code_verifier := ['v'], code_challenge := ['c'],
        twitter := some (make_token "cid" "https://app/cb") }
      { oauth_state := some "abc123", redirect_url := none, oauth_token := none }
      (some "validcode") (some "wrong")
      (fun _ => Except.ok { access_token := "tok" }) =
    CallbackOutcome.success
      { oauth_state := some "abc123", redirect_url := none,
        oauth_token := some { access_token := "tok" } }
      (Response.redirectTo "/")
      { token_url := token_url, client_secret := "sec", code_verifier := ['v'],
        code := some "validcode", redirect_uri := "https://app/cb" } := rfl

/-- C2 counterexample: with a token already in the session and the
requested redirect target `/playground`, `start` responds with a
redirect to `/`, not to the requested target. -/
theorem c2_counterexample :
    (start psW { oauth_token := some tokW } (some "/playground") "st").2.2 =
      Response.redirectTo "/" ∧
    Response.redirectTo "/" ≠ Response.redirectTo "/playground" :=
  ⟨rfl, by decide⟩

/-- C2 (amended): when the session already holds an OAuth token, `start`
short-circuits: it returns immediately with a redirect to the
application root `/` (regardless of the requested target), leaving the
process state and the session unchanged and issuing no authorization
redirect (no provider contact). -/
theorem c2_short_circuit (ps : ProcessState) (s : Session) (arg : Option String)
    (st : String) (h : (s.oauth_token).isSome = true) :
    start ps s arg st = (ps, s, Response.redirectTo "/") := by
  simp [start, h]

/-- Witness for C2's amended theorem at a concrete session holding a token. -/
theorem c2_witness :
    (({ oauth_token := some tokW } : Session).oauth_token).isSome = true ∧
    start psW { oauth_token := some tokW } (some "/playground") "st" =
      (psW, { oauth_token := some tokW }, Response.redirectTo "/") :=
  ⟨rfl, c2_short_circuit psW { oauth_token := some tokW } (some "/playground") "st" rfl⟩

/-- C3: for every verifier, the challenge the code computes — base64url
of the SHA-256 digest with every `=` removed — equals the spec's
description: the base64url encoding of the digest with only the trailing
`=` padding removed.  `sha256` is the external digest function; the
hypothesis says its output is a byte string. -/
theorem c3_challenge_is_b64url_nopad_sha256
    (sha256 : List Nat → List Nat) (verifier : List Char)
    (hbytes : ∀ b ∈ sha256 (utf8Encode verifier), b < 256) :
    code_challenge_of (sha256 (utf8Encode verifier)) =
      spec_challenge_of (sha256 (utf8Encode verifier)) :=
  replaceEqEmpty_b64urlEncode _ hbytes

/-- Witness for C3 at a concrete 32-byte digest. -/
theorem c3_witness :
    (∀ b ∈ shaW (utf8Encode ['a', 'b', 'c']), b < 256) ∧
    code_challenge_of (shaW (utf8Encode ['a', 'b', 'c'])) =
      spec_challenge_of (shaW (utf8Encode ['a', 'b', 'c'])) :=
  ⟨by decide, c3_challenge_is_b64url_nopad_sha256 shaW ['a', 'b', 'c'] (by decide)⟩

/-- C4: for every value of the random bytes, the produced verifier is
the base64url encoding of those bytes with every character outside
`[A-Za-z0-9]` removed (the `re.sub` of runs equals the per-character
filter), and consequently every character of the verifier is
alphanumeric. -/
theorem c4_verifier_filter_alnum (randomBytes : List Nat) :
    code_verifier_of randomBytes = (b64urlEncode randomBytes).filter isAlnumAscii ∧
    (code_verifier_of randomBytes).all isAlnumAscii = true := by
  refine ⟨reSubNonAlnum_eq_filter _, ?_⟩
  rw [code_verifier_of, reSubNonAlnum_eq_filter]
  simp only [List.all_eq_true, List.mem_filter]
  exact fun c hc => hc.2

/-- C5: a callback whose token exchange succeeds stores the token,
redirects to the session's pending redirect target (defaulting to `/`
when absent), and clears the target key from the session, so the target
is absent afterwards. -/
theorem c5_redirect_target_consumed (ps : ProcessState) (tw : OAuth2Client) (s : Session)
    (code stp : Option String) (exchange : TokenRequest → Except String Token) (token : Token)
    (htw : ps.twitter = some tw)
    (hex : exchange (mkTokenRequest ps tw code) = Except.ok token) :
    callback ps s code stp exchange =
      CallbackOutcome.success
        { s with oauth_token := some token, redirect_url := none }
        (Response.redirectTo ((s.redirect_url).getD "/"))
        (mkTokenRequest ps tw code) := by
  simp [callback, htw, hex]

/-- Witness for C5: the `/start?redirect_url=/playground` scenario — a
successful callback after that start redirects to `/playground` (not
`/`) and clears the stored target. -/
theorem c5_witness :
    startedPs.twitter = some twW ∧
    exOk (mkTokenRequest startedPs twW (some "c")) = Except.ok tokW ∧
    (startedSession.redirect_url).getD "/" = "/playground" ∧
    callback startedPs startedSession (some "c") (some "xyz") exOk =
      CallbackOutcome.success
        { startedSession with oauth_token := some tokW, redirect_url := none }
        (Response.redirectTo ((startedSession.redirect_url).getD "/"))
        (mkTokenRequest startedPs twW (some "c")) :=
  ⟨rfl, rfl, rfl,
    c5_redirect_target_consumed startedPs twW startedSession (some "c") (some "xyz")
      exOk tokW rfl rfl⟩

/-- C6: a callback with a state matching the session's stored state and
a code the provider accepts succeeds, and the resulting session holds
the returned token under the token key (it reports authenticated). -/
theorem c6_matching_state_stores_token (ps : ProcessState) (tw : OAuth2Client) (s : Session)
    (st : String) (code : String) (exchange : TokenRequest → Except String Token) (token : Token)
    (htw : ps.twitter = some tw)
    (hstate : s.oauth_state = some st)
    (hex : exchange (mkTokenRequest ps tw (some code)) = Except.ok token) :
    ∃ s' resp req, callback ps s (some code) (some st) exchange =
        CallbackOutcome.success s' resp req ∧ s'.oauth_token = some token :=
  ⟨{ s with oauth_token := some token, redirect_url := none },
    Response.redirectTo ((s.redirect_url).getD "/"),
    mkTokenRequest ps tw (some code),
    by simp [callback, htw, hex], rfl⟩

/-- Witness for C6 at a concrete matching state. -/
theorem c6_witness :
    startedPs.twitter = some twW ∧
    startedSession.oauth_state = some "xyz" ∧
    exOk (mkTokenRequest startedPs twW (some "g")) = Except.ok tokW ∧
    (∃ s' resp req, callback startedPs startedSession (some "g") (some "xyz") exOk =
        CallbackOutcome.success s' resp req ∧ s'.oauth_token = some tokW) :=
  ⟨rfl, rfl, rfl,
    c6_matching_state_stores_token startedPs twW startedSession "xyz" "g" exOk tokW
      rfl rfl rfl⟩


/-- C7: the token-exchange request presents exactly the token endpoint,
the client secret, the process's PKCE verifier — the very string whose
digest is the held challenge — the callback's `code` parameter, and the
registered redirect URI; stated for a callback following a `start` in a
freshly initialized process. -/
theorem c7_token_request_fields
    (env : Env) (rb : List Nat) (sha256 : List Nat → List Nat) (s : Session)
    (target : Option String) (st : String) (code stp : Option String)
    (exchange : TokenRequest → Except String Token)
    (h : s.oauth_token = none) :
    requestOf (callback (start (initProcess env rb sha256) s target st).1
        (start (initProcess env rb sha256) s target st).2.1 code stp exchange) =
      some { token_url := token_url, client_secret := env.client_secret,
             code_verifier := (initProcess env rb sha256).code_verifier,
             code := code, redirect_uri := env.redirect_uri } ∧
    (initProcess env rb sha256).code_challenge =
      code_challenge_of (sha256 (utf8Encode (initProcess env rb sha256).code_verifier)) := by
  have hs : ((s.oauth_token).isSome) = false := by simp [h]
  refine ⟨?_, rfl⟩
  rw [requestOf_callback]
  simp [start, hs, initProcess, make_token, mkTokenRequest]

/-- Witness for C7 at a concrete environment and empty session. -/
theorem c7_witness :
    (({} : Session).oauth_token = none) ∧
    requestOf (callback (start (initProcess envW [5, 6] shaW) {} none "st").1
        (start (initProcess envW [5, 6] shaW) {} none "st").2.1 (some "k") (some "st") exOk) =
      some { token_url := token_url, client_secret := envW.client_secret,
             code_verifier := (initProcess envW [5, 6] shaW).code_verifier,
             code := some "k", redirect_uri := envW.redirect_uri } ∧
    (initProcess envW [5, 6] shaW).code_challenge =
      code_challenge_of (shaW (utf8Encode (initProcess envW [5, 6] shaW).code_verifier)) :=
  ⟨rfl, c7_token_request_fields envW [5, 6] shaW {} none "st" (some "k") (some "st") exOk rfl⟩

/-- C8: the PKCE pair is process-global, computed once and never
regenerated: initialization establishes that the challenge is derived
from the verifier; `start` changes neither field and embeds the held
challenge in the authorization URL it issues; and whatever token request
the callback makes presents the held verifier.  The derivability
invariant is therefore preserved by every operation. -/
theorem c8_pkce_process_global
    (env : Env) (rb : List Nat) (sha256 : List Nat → List Nat)
    (ps : ProcessState) (s s2 : Session) (target : Option String) (st : String)
    (code stp : Option String) (exchange : TokenRequest → Except String Token)
    (hinv : pkceDerivable sha256 ps) :
    pkceDerivable sha256 (initProcess env rb sha256) ∧
    (start ps s target st).1.code_verifier = ps.code_verifier ∧
    (start ps s target st).1.code_challenge = ps.code_challenge ∧
    pkceDerivable sha256 (start ps s target st).1 ∧
    (∀ u, (start ps s target st).2.2 = Response.redirectAuth u →
      u.code_challenge = ps.code_challenge) ∧
    (∀ req, requestOf (callback ps s2 code stp exchange) = some req →
      req.code_verifier = ps.code_verifier) := by
  refine ⟨rfl, ?_, ?_, ?_, ?_, ?_⟩
  · by_cases hs : (s.oauth_token).isSome <;> simp [start, hs]
  · by_cases hs : (s.oauth_token).isSome <;> simp [start, hs]
  · by_cases hs : (s.oauth_token).isSome <;>
      simpa [pkceDerivable, start, hs] using hinv
  · intro u hu
    by_cases hs : (s.oauth_token).isSome <;> simp [start, hs] at hu
    rw [← hu]
  · intro req hreq
    rw [requestOf_callback] at hreq
    cases htw : ps.twitter with
    | none => rw [htw] at hreq; simp at hreq
    | some tw =>
        rw [htw] at hreq
        simp [mkTokenRequest] at hreq
        rw [← hreq]

/-- Witness for C8: the invariant hypothesis holds for the freshly
initialized process, and the conclusion follows for it. -/
theorem c8_witness :
    pkceDerivable shaW psW ∧
    (pkceDerivable shaW (initProcess envW [9] shaW) ∧
     (start psW {} none "s8").1.code_verifier = psW.code_verifier ∧
     (start psW {} none "s8").1.code_challenge = psW.code_challenge ∧
     pkceDerivable shaW (start psW {} none "s8").1 ∧
     (∀ u, (start psW {} none "s8").2.2 = Response.redirectAuth u →
       u.code_challenge = psW.code_challenge) ∧
     (∀ req, requestOf (callback psW {} none none exOk) = some req →
       req.code_verifier = psW.code_verifier)) :=
  ⟨rfl, c8_pkce_process_global envW [9] shaW psW {} {} none "s8" none none exOk rfl⟩

/-- C9: in a process where `/start` has never run, the global `twitter`
variable is unbound, and the callback route raises the uncaught
`NameError` (modelled `unboundClient`) instead of returning a handled
authentication failure — for every session and query, so the branch is
reachable at the public HTTP interface. -/
theorem c9_callback_before_start_unbound
    (env : Env) (rb : List Nat) (sha256 : List Nat → List Nat) (s : Session)
    (code stp : Option String) (exchange : TokenRequest → Except String Token) :
    (initProcess env rb sha256).twitter = none ∧
    callback (initProcess env rb sha256) s code stp exchange =
      CallbackOutcome.unboundClient :=
  ⟨rfl, rfl⟩

/-- C10: `get_user_notes` performs exactly two fetches — the second at
the profile endpoint with the cursor taken from the first response — and
returns the concatenation, in page order, of the reaction counts of the
comment-typed items of the two pages; no further page is fetched. -/
theorem c10_two_pages_comment_reactions (fetch : String → FeedPage) (user_id : Nat) :
    (get_user_notes fetch user_id).1 =
      commentReactions (fetch (profileEndpoint user_id)).items ++
        commentReactions (fetch (profileEndpointCursor user_id
          (fetch (profileEndpoint user_id)).nextCursor)).items ∧
    (get_user_notes fetch user_id).2 =
      [profileEndpoint user_id,
        profileEndpointCursor user_id (fetch (profileEndpoint user_id)).nextCursor] ∧
    (get_user_notes fetch user_id).2.length = 2 := by
  refine ⟨?_, rfl, rfl⟩
  simp [get_user_notes, map_filter_comment]
